import Mathlib

/-!
Verification of `raiden/transfer/architecture.py`: a shallow embedding of the
deterministic state-transition engine (marker classes `State`, `StateChange`,
`Event`, the `Iteration` namedtuple, and `StateManager` with its `__init__`
and `dispatch` methods), together with proofs of the specified properties.

Python runtime values flowing through the engine are modelled by the pure
inductive `PyVal`; `isinstance` checks against the marker classes become the
boolean predicates `isStateChange`, `isState`, `isStateOrNone`, `isEvent`.
Exceptions are modelled by `PyError`: `valueError` is the `ValueError` that
`__init__` raises (the spec's ConfigurationError) and `assertionError` is the
`AssertionError` an `assert` statement raises (the spec's ContractViolation).

`deepcopy` appears twice. In the pure-value model `PyVal` has value semantics,
so a deep copy is value-identical to its source and is embedded as the
identity. The aliasing content of `deepcopy` (value-equal, no shared mutable
structure) is modelled separately on object graphs `Obj`, where every mutable
node carries a machine address and `Obj.deepcopy` freshens all addresses with
fresh ones, exactly as `copy.deepcopy` allocates fresh objects.
-/

namespace Raiden

/-- A Python value as seen by the engine: `None`, an instance of one of the
three marker classes (each carrying opaque payload data), an `Iteration`
namedtuple, or any other object. -/
inductive PyVal where
  | none
  | stateVal (d : Nat)
  | stateChangeVal (d : Nat)
  | eventVal (d : Nat)
  | iterationVal (new_state : PyVal) (events : List PyVal)
  | other (d : Nat)
deriving Repr

/-- `isinstance(x, StateChange)`. -/
def isStateChange : PyVal → Bool
  | .stateChangeVal _ => true
  | _ => false

/-- `isinstance(x, State)`. -/
def isState : PyVal → Bool
  | .stateVal _ => true
  | _ => false

/-- `isinstance(x, (State, types.NoneType))`. -/
def isStateOrNone : PyVal → Bool
  | .stateVal _ => true
  | .none => true
  | _ => false

/-- `isinstance(x, Event)`. -/
def isEvent : PyVal → Bool
  | .eventVal _ => true
  | _ => false

/-- The exceptions `architecture.py` can raise: `ValueError` from `__init__`
(the spec's ConfigurationError) and `AssertionError` from the `assert`
statements in `dispatch` (the spec's ContractViolation). -/
inductive PyError where
  | valueError
  | assertionError
deriving DecidableEq, Repr

/-- `StateManager`: the mutable storage for the application state. Its two
attributes are set by `__init__`. -/
structure StateManager where
  state_transition : PyVal → PyVal → PyVal
  current_state : PyVal

/-- The `state_transition` argument of `StateManager.__init__` before the
`callable` check: either an actual callable (a function) or some
non-callable object. -/
inductive PyCallable where
  | fn (f : PyVal → PyVal → PyVal)
  | notCallable (d : Nat)

/-- Python's `callable` builtin on a `PyCallable`. -/
def callable : PyCallable → Bool
  | .fn _ => true
  | .notCallable _ => false

/-- `StateManager.__init__(state_transition, current_state)`:
`if not callable(state_transition): raise ValueError(...)`, then both
attributes are assigned.  A raise means no manager object is produced. -/
def StateManager.init (state_transition : PyCallable) (current_state : PyVal) :
    Except PyError StateManager :=
  match state_transition with
  | .notCallable _ => .error .valueError
  | .fn f => .ok ⟨f, current_state⟩

/-- `StateManager.dispatch(state_change)`.  Returns the manager object as it
stands when the call ends (Python mutates `self` in place, and the object
survives a raise) together with either the returned events or the raised
exception.  Faithful to the source order:
`assert isinstance(state_change, StateChange)`, then
`next_state = deepcopy(self.current_state)` (identity in this value model),
then `iteration = self.state_transition(next_state, state_change)`, then
`assert isinstance(iteration, Iteration)`, then the tuple unpacking
`self.current_state, events = iteration` — which mutates `self` BEFORE the
final two asserts `isinstance(self.current_state, (State, types.NoneType))`
and `all(isinstance(e, Event) for e in events)` run. -/
def StateManager.dispatch (m : StateManager) (state_change : PyVal) :
    StateManager × Except PyError (List PyVal) :=
  if isStateChange state_change = false then
    (m, .error .assertionError)
  else
    let next_state := m.current_state
    let iteration := m.state_transition next_state state_change
    match iteration with
    | .iterationVal new_state events =>
      let m' : StateManager := { m with current_state := new_state }
      if isStateOrNone new_state = false then (m', .error .assertionError)
      else if events.all isEvent = false then (m', .error .assertionError)
      else (m', .ok events)
    | _ => (m, .error .assertionError)

/-- Dispatch a list of state changes in order, accumulating the returned
events; a raise aborts the run at that point (the exception propagates to
the caller), leaving the manager as the raise left it. -/
def StateManager.replay (m : StateManager) : List PyVal → StateManager × List PyVal
  | [] => (m, [])
  | c :: cs =>
    match m.dispatch c with
    | (m1, .ok evs) =>
      let r := m1.replay cs
      (r.1, evs ++ r.2)
    | (m1, .error _) => (m1, [])

/-!
Object-graph model of `copy.deepcopy` as used by the line
`next_state = deepcopy(self.current_state)` in `dispatch`.  A Python object
graph is a tree of mutable nodes, each carrying a machine address (its
identity) and a tag (its directly held data); aliasing is the same address
occurring more than once.  `deepcopy` allocates fresh objects for the whole
reachable structure: here, it freshens every address with a fresh one above
every address of the source.  An in-place mutation targets an address and
changes the data of every occurrence of that object.
-/

/-- A Python object graph: immutable atoms and mutable binary nodes carrying
an address and a tag. -/
inductive Obj where
  | atom (v : Nat)
  | node (addr : Nat) (tag : Nat) (left : Obj) (right : Obj)
deriving DecidableEq, Repr

/-- The pure value of an object graph: its structure with identities erased.
Two graphs are value-equal exactly when their `valueOf` agree. -/
inductive ObjVal where
  | atomV (v : Nat)
  | nodeV (tag : Nat) (left : ObjVal) (right : ObjVal)
deriving DecidableEq, Repr

/-- Erase addresses. -/
def Obj.valueOf : Obj → ObjVal
  | .atom v => .atomV v
  | .node _ t l r => .nodeV t l.valueOf r.valueOf

/-- The addresses of all mutable nodes of the graph. -/
def Obj.addrs : Obj → List Nat
  | .atom _ => []
  | .node a _ l r => a :: (l.addrs ++ r.addrs)

/-- An upper bound on the addresses occurring in the graph. -/
def Obj.maxAddr : Obj → Nat
  | .atom _ => 0
  | .node a _ l r => max a (max l.maxAddr r.maxAddr)

/-- Give every node a fresh consecutive address starting at `fresh`;
returns the freshened graph and the next unused address. -/
def Obj.freshen (fresh : Nat) : Obj → Obj × Nat
  | .atom v => (.atom v, fresh)
  | .node _ t l r =>
    let pl := l.freshen (fresh + 1)
    let pr := r.freshen pl.2
    (.node fresh t pl.1 pr.1, pr.2)

/-- `copy.deepcopy`: a structurally identical graph whose every node is a
freshly allocated object (address above every address of the source). -/
def Obj.deepcopy (o : Obj) : Obj := (o.freshen (o.maxAddr + 1)).1

/-- In-place mutation: set the tag of the object at address `a` to `t`.
Every occurrence of address `a` is the same object, so all change together;
a graph not containing `a` is untouched. -/
def Obj.mutateTag (a : Nat) (t : Nat) : Obj → Obj
  | .atom v => .atom v
  | .node a0 t0 l r =>
    .node a0 (if a0 = a then t else t0) (l.mutateTag a t) (r.mutateTag a t)

theorem freshen_valueOf (o : Obj) (fresh : Nat) :
    (o.freshen fresh).1.valueOf = o.valueOf := by
  induction o generalizing fresh with
  | atom v => rfl
  | node a t l r ihl ihr =>
    simp [Obj.freshen, Obj.valueOf, ihl, ihr]

theorem freshen_snd_ge (o : Obj) (fresh : Nat) : fresh ≤ (o.freshen fresh).2 := by
  induction o generalizing fresh with
  | atom v => exact Nat.le_refl _
  | node a t l r ihl ihr =>
    simp only [Obj.freshen]
    exact le_trans (Nat.le_succ fresh) (le_trans (ihl (fresh + 1)) (ihr _))

theorem freshen_addrs_ge (o : Obj) (fresh : Nat) :
    ∀ a ∈ (o.freshen fresh).1.addrs, fresh ≤ a := by
  induction o generalizing fresh with
  | atom v => intro a ha; simp [Obj.freshen, Obj.addrs] at ha
  | node a0 t l r ihl ihr =>
    intro a ha
    simp only [Obj.freshen, Obj.addrs, List.mem_cons, List.mem_append] at ha
    rcases ha with h | h | h
    · omega
    · exact le_trans (Nat.le_succ fresh) (ihl (fresh + 1) a h)
    · exact le_trans (le_trans (Nat.le_succ fresh) (freshen_snd_ge l (fresh + 1)))
        (ihr _ a h)

theorem addr_le_maxAddr (o : Obj) : ∀ a ∈ o.addrs, a ≤ o.maxAddr := by
  induction o with
  | atom v => intro a ha; simp [Obj.addrs] at ha
  | node a0 t l r ihl ihr =>
    intro a ha
    simp only [Obj.addrs, List.mem_cons, List.mem_append] at ha
    simp only [Obj.maxAddr]
    rcases ha with h | h | h
    · omega
    · have := ihl a h; omega
    · have := ihr a h; omega

theorem mutateTag_not_mem (o : Obj) (a t : Nat) (h : a ∉ o.addrs) :
    o.mutateTag a t = o := by
  induction o with
  | atom v => rfl
  | node a0 t0 l r ihl ihr =>
    simp only [Obj.addrs, List.mem_cons, List.mem_append] at h
    push_neg at h
    obtain ⟨h0, hl, hr⟩ := h
    simp [Obj.mutateTag, ihl hl, ihr hr, Ne.symm h0]

theorem deepcopy_valueOf (o : Obj) : o.deepcopy.valueOf = o.valueOf :=
  freshen_valueOf o (o.maxAddr + 1)

theorem deepcopy_addrs_disjoint (o : Obj) :
    ∀ a ∈ o.deepcopy.addrs, a ∉ o.addrs := by
  intro a ha hmem
  have h1 : o.maxAddr + 1 ≤ a := freshen_addrs_ge o (o.maxAddr + 1) a ha
  have h2 : a ≤ o.maxAddr := addr_le_maxAddr o a hmem
  omega

/-! Claim theorems. -/

/-- Claim C2: replay determinism.  Transition functions in this embedding are
Lean functions, hence pure by construction; two managers built from the same
transition function and equal initial states, fed the same ordered list of
dispatch calls, end with equal `current_state` and produce equal concatenated
event sequences. -/
theorem replay_determinism (m1 m2 : StateManager) (cs : List PyVal)
    (hf : m1.state_transition = m2.state_transition)
    (hs : m1.current_state = m2.current_state) :
    (m1.replay cs).1.current_state = (m2.replay cs).1.current_state ∧
    (m1.replay cs).2 = (m2.replay cs).2 := by
  obtain ⟨f1, s1⟩ := m1
  obtain ⟨f2, s2⟩ := m2
  cases hf
  cases hs
  exact ⟨rfl, rfl⟩

/-- Claim C2 witness at a concrete transition function, initial state and
change sequence. -/
theorem replay_determinism_witness :
    ((StateManager.mk (fun s _ => .iterationVal s [.eventVal 0]) (.stateVal 0)).replay
        [.stateChangeVal 1, .stateChangeVal 2]).1.current_state
      = ((StateManager.mk (fun s _ => .iterationVal s [.eventVal 0]) (.stateVal 0)).replay
        [.stateChangeVal 1, .stateChangeVal 2]).1.current_state ∧
    ((StateManager.mk (fun s _ => .iterationVal s [.eventVal 0]) (.stateVal 0)).replay
        [.stateChangeVal 1, .stateChangeVal 2]).2
      = ((StateManager.mk (fun s _ => .iterationVal s [.eventVal 0]) (.stateVal 0)).replay
        [.stateChangeVal 1, .stateChangeVal 2]).2 :=
  replay_determinism _ _ _ rfl rfl

/-- Claim C3: output-contract enforcement.  When the transition function
returns an `Iteration` whose new state is neither `None` nor a `State`, or
whose event list holds an element that is not an `Event`, `dispatch` raises
`AssertionError` (the spec's ContractViolation) instead of returning events. -/
theorem dispatch_output_contract (m : StateManager) (c ns : PyVal)
    (evs : List PyVal)
    (hc : isStateChange c = true)
    (ht : m.state_transition m.current_state c = .iterationVal ns evs)
    (hbad : isStateOrNone ns = false ∨ evs.all isEvent = false) :
    (m.dispatch c).2 = .error .assertionError := by
  rcases hbad with h | h
  · simp [StateManager.dispatch, hc, ht, h]
  · by_cases hns : isStateOrNone ns = false
    · simp [StateManager.dispatch, hc, ht, hns]
    · simp [StateManager.dispatch, hc, ht, hns, h]

/-- Claim C3 witness: a transition returning an `Iteration` whose new state
is a plain object (neither `State` nor `None`). -/
theorem dispatch_output_contract_witness :
    ((StateManager.mk (fun _ _ => .iterationVal (.other 1) []) (.stateVal 0)).dispatch
        (.stateChangeVal 0)).2 = .error .assertionError :=
  dispatch_output_contract _ (.stateChangeVal 0) (.other 1) [] rfl rfl (Or.inl rfl)

/-- Claim C4: precondition enforcement.  Dispatching an argument that is not
a `StateChange` raises `AssertionError` with the manager unchanged, and the
outcome does not depend on the transition function at all — the transition
function is never invoked. -/
theorem dispatch_precondition (f g : PyVal → PyVal → PyVal) (s c : PyVal)
    (hc : isStateChange c = false) :
    (StateManager.mk f s).dispatch c = (StateManager.mk f s, .error .assertionError) ∧
    ((StateManager.mk f s).dispatch c).2 = ((StateManager.mk g s).dispatch c).2 := by
  constructor
  · simp [StateManager.dispatch, hc]
  · simp [StateManager.dispatch, hc]

/-- Claim C4 witness: dispatching an `Event` instance (not a `StateChange`)
against two managers with different transition functions. -/
theorem dispatch_precondition_witness :
    (StateManager.mk (fun s _ => PyVal.iterationVal s []) (.stateVal 2)).dispatch (.eventVal 0)
      = (StateManager.mk (fun s _ => PyVal.iterationVal s []) (.stateVal 2), .error .assertionError) ∧
    ((StateManager.mk (fun s _ => PyVal.iterationVal s []) (.stateVal 2)).dispatch (.eventVal 0)).2
      = ((StateManager.mk (fun _ _ => PyVal.none) (.stateVal 2)).dispatch (.eventVal 0)).2 :=
  dispatch_precondition _ _ _ _ rfl

/-- Claim C5: construction validation.  A non-callable `state_transition`
makes `__init__` raise `ValueError` (the spec's ConfigurationError) at
construction, so no manager object is produced; any callable
`state_transition` makes construction succeed. -/
theorem construction_validation (t : PyCallable) (s : PyVal) :
    (callable t = false → StateManager.init t s = .error .valueError) ∧
    (callable t = true →
      ∃ f, t = .fn f ∧ StateManager.init t s = .ok (StateManager.mk f s)) := by
  cases t with
  | fn f =>
    refine ⟨fun h => ?_, fun _ => ⟨f, rfl, rfl⟩⟩
    simp [callable] at h
  | notCallable d =>
    refine ⟨fun _ => rfl, fun h => ?_⟩
    simp [callable] at h

/-- Claim C5 witness: a non-callable argument and a concrete callable one. -/
theorem construction_validation_witness :
    StateManager.init (.notCallable 0) (.other 7) = .error .valueError ∧
    ∃ f, PyCallable.fn (fun s _ => PyVal.iterationVal s []) = .fn f ∧
      StateManager.init (.fn (fun s _ => PyVal.iterationVal s [])) (.stateVal 1)
        = .ok (StateManager.mk f (.stateVal 1)) :=
  ⟨(construction_validation (.notCallable 0) (.other 7)).1 rfl,
   (construction_validation (.fn (fun s _ => PyVal.iterationVal s [])) (.stateVal 1)).2 rfl⟩

/-- Claim C10: construction performs no validation of the initial state.
For every callable transition function and every value `v` whatsoever —
including values that are neither a `State` nor `None` — construction
succeeds and the manager's `current_state` is exactly `v`; the
State-or-`None` constraint is only checked inside `dispatch`. -/
theorem init_no_state_validation (f : PyVal → PyVal → PyVal) (v : PyVal) :
    StateManager.init (.fn f) v = .ok (StateManager.mk f v) ∧
    (StateManager.mk f v).current_state = v :=
  ⟨rfl, rfl⟩

/-- The object graph that `dispatch` passes as the transition function's
state argument — the graph-level content of the line
`next_state = deepcopy(self.current_state)` — when the committed state is
the graph `current`. -/
def dispatchStateArg (current : Obj) : Obj := current.deepcopy

/-- Claim C6: copy-before-mutate isolation.  The state graph `dispatch`
passes to the transition function is value-equal to the committed state,
shares no mutable node (no address) with it, and therefore any in-place
mutation at any node reachable from the passed copy leaves the pre-dispatch
committed state unchanged. -/
theorem dispatch_copy_isolation (current : Obj) :
    (dispatchStateArg current).valueOf = current.valueOf ∧
    ∀ a ∈ (dispatchStateArg current).addrs, a ∉ current.addrs ∧
      ∀ t, current.mutateTag a t = current := by
  refine ⟨deepcopy_valueOf current, fun a ha => ?_⟩
  have hnot := deepcopy_addrs_disjoint current a ha
  exact ⟨hnot, fun t => mutateTag_not_mem current a t hnot⟩

/-- Claim C6 witness: a concrete two-node state graph; the copy's root has
the fresh address 1, and mutating it leaves the original untouched. -/
theorem dispatch_copy_isolation_witness :
    (dispatchStateArg (.node 0 5 (.atom 1) (.atom 2))).valueOf
      = (Obj.node 0 5 (.atom 1) (.atom 2)).valueOf ∧
    1 ∈ (dispatchStateArg (.node 0 5 (.atom 1) (.atom 2))).addrs ∧
    1 ∉ (Obj.node 0 5 (.atom 1) (.atom 2)).addrs ∧
    (Obj.node 0 5 (.atom 1) (.atom 2)).mutateTag 1 9
      = Obj.node 0 5 (.atom 1) (.atom 2) :=
  ⟨(dispatch_copy_isolation (.node 0 5 (.atom 1) (.atom 2))).1,
   by decide,
   ((dispatch_copy_isolation (.node 0 5 (.atom 1) (.atom 2))).2 1 (by decide)).1,
   ((dispatch_copy_isolation (.node 0 5 (.atom 1) (.atom 2))).2 1 (by decide)).2 9⟩

/-- Claim C7: commit postcondition.  Whenever `dispatch` returns normally,
the transition function's returned `Iteration` had exactly the manager's new
`current_state` as its new-state component (including the `None` case) and
exactly the returned event list, in order, as its events component. -/
theorem dispatch_commit (m m' : StateManager) (c : PyVal) (evs : List PyVal)
    (h : m.dispatch c = (m', .ok evs)) :
    m.state_transition m.current_state c = .iterationVal m'.current_state evs := by
  by_cases hc : isStateChange c = false
  · simp [StateManager.dispatch, hc] at h
  · cases hit : m.state_transition m.current_state c with
    | iterationVal ns es =>
      by_cases hns : isStateOrNone ns = false
      · simp [StateManager.dispatch, hc, hit, hns] at h
      · by_cases hev : es.all isEvent = false
        · simp [StateManager.dispatch, hc, hit, hns, hev] at h
        · have hd : m.dispatch c = ({ m with current_state := ns }, .ok es) := by
            simp [StateManager.dispatch, hc, hit, hns, hev]
          rw [hd] at h
          simp only [Prod.mk.injEq, Except.ok.injEq] at h
          obtain ⟨hm, hev2⟩ := h
          subst hev2
          subst hm
          rfl
    | none => simp [StateManager.dispatch, hc, hit] at h
    | stateVal d => simp [StateManager.dispatch, hc, hit] at h
    | stateChangeVal d => simp [StateManager.dispatch, hc, hit] at h
    | eventVal d => simp [StateManager.dispatch, hc, hit] at h
    | other d => simp [StateManager.dispatch, hc, hit] at h

/-- Claim C7 witness: a concrete successful dispatch. -/
theorem dispatch_commit_witness :
    (StateManager.mk (fun s _ => .iterationVal s [.eventVal 1]) (.stateVal 3)).state_transition
        (StateManager.mk (fun s _ => .iterationVal s [.eventVal 1]) (.stateVal 3)).current_state
        (.stateChangeVal 0)
      = .iterationVal
        (StateManager.mk (fun s _ => PyVal.iterationVal s [.eventVal 1]) (.stateVal 3)).current_state
        [.eventVal 1] :=
  dispatch_commit _ _ (.stateChangeVal 0) [.eventVal 1] rfl

/-- Claim C8: unknown-change no-op.  If the transition function answers a
given `StateChange` with an `Iteration` carrying the unchanged state and an
empty event list — the contract for unrecognized changes — then dispatching
that change returns an empty event list and leaves `current_state` equal to
its prior (State-or-`None`) value. -/
theorem dispatch_noop (m : StateManager) (c : PyVal)
    (hc : isStateChange c = true)
    (hok : isStateOrNone m.current_state = true)
    (ht : m.state_transition m.current_state c = .iterationVal m.current_state []) :
    m.dispatch c = (m, .ok []) := by
  simp [StateManager.dispatch, hc, ht, hok]

/-- Claim C8 witness: an identity transition on a concrete manager. -/
theorem dispatch_noop_witness :
    (StateManager.mk (fun s _ => .iterationVal s []) (.stateVal 4)).dispatch (.stateChangeVal 7)
      = (StateManager.mk (fun s _ => PyVal.iterationVal s []) (.stateVal 4), .ok []) :=
  dispatch_noop _ (.stateChangeVal 7) rfl rfl rfl

/-- Claim C9: absence handling.  A transition returning an `Iteration` with
`None` as its new state makes `current_state` read as `None` afterwards, and
a following dispatch whose transition returns a concrete `State` succeeds,
after which `current_state` is that new `State`. -/
theorem dispatch_absence (m : StateManager) (c c2 : PyVal) (k : Nat)
    (evs evs2 : List PyVal)
    (hc : isStateChange c = true)
    (ht : m.state_transition m.current_state c = .iterationVal .none evs)
    (he : evs.all isEvent = true)
    (hc2 : isStateChange c2 = true)
    (ht2 : m.state_transition .none c2 = .iterationVal (.stateVal k) evs2)
    (he2 : evs2.all isEvent = true) :
    (m.dispatch c).1.current_state = .none ∧
    (m.dispatch c).2 = .ok evs ∧
    ((m.dispatch c).1.dispatch c2).1.current_state = .stateVal k ∧
    ((m.dispatch c).1.dispatch c2).2 = .ok evs2 := by
  have h1 : m.dispatch c = ({ m with current_state := .none }, .ok evs) := by
    simp [StateManager.dispatch, hc, ht, he, isStateOrNone]
  rw [h1]
  have h2 : StateManager.dispatch { m with current_state := .none } c2
      = ({ m with current_state := .stateVal k }, .ok evs2) := by
    simp [StateManager.dispatch, hc2, ht2, he2, isStateOrNone]
  exact ⟨rfl, rfl, by rw [h2], by rw [h2]⟩

/-- Claim C9 witness: a transition that tears the state down on the first
change and re-seeds a concrete `State` when dispatched against absence. -/
theorem dispatch_absence_witness :
    ((StateManager.mk
        (fun s _ => match s with
          | .none => .iterationVal (.stateVal 9) [.eventVal 2]
          | _ => .iterationVal .none [.eventVal 1])
        (.stateVal 0)).dispatch (.stateChangeVal 0)).1.current_state = .none ∧
    ((StateManager.mk
        (fun s _ => match s with
          | .none => .iterationVal (.stateVal 9) [.eventVal 2]
          | _ => .iterationVal .none [.eventVal 1])
        (.stateVal 0)).dispatch (.stateChangeVal 0)).2 = .ok [.eventVal 1] ∧
    (((StateManager.mk
        (fun s _ => match s with
          | .none => .iterationVal (.stateVal 9) [.eventVal 2]
          | _ => .iterationVal .none [.eventVal 1])
        (.stateVal 0)).dispatch (.stateChangeVal 0)).1.dispatch
          (.stateChangeVal 1)).1.current_state = .stateVal 9 ∧
    (((StateManager.mk
        (fun s _ => match s with
          | .none => .iterationVal (.stateVal 9) [.eventVal 2]
          | _ => .iterationVal .none [.eventVal 1])
        (.stateVal 0)).dispatch (.stateChangeVal 0)).1.dispatch
          (.stateChangeVal 1)).2 = .ok [.eventVal 2] :=
  dispatch_absence _ (.stateChangeVal 0) (.stateChangeVal 1) 9
    [.eventVal 1] [.eventVal 2] rfl rfl rfl rfl rfl rfl

/-- Claim C1 counterexample: dispatch is NOT atomic with respect to errors.
The tuple unpacking `self.current_state, events = iteration` runs before the
asserts that check the State and Event contracts, so when the transition
function returns an `Iteration` whose new state is a plain object, dispatch
raises `AssertionError` with `current_state` already overwritten by the
offending value — it no longer equals its pre-dispatch value `stateVal 5`,
and the state changed even though no events were returned. -/
theorem dispatch_error_atomicity_cex :
    ((StateManager.mk (fun _ _ => .iterationVal (.other 0) []) (.stateVal 5)).dispatch
        (.stateChangeVal 0)).2 = .error .assertionError ∧
    ((StateManager.mk (fun _ _ => .iterationVal (.other 0) []) (.stateVal 5)).dispatch
        (.stateChangeVal 0)).1.current_state = .other 0 ∧
    PyVal.other 0 ≠ PyVal.stateVal 5 :=
  ⟨rfl, rfl, fun h => PyVal.noConfusion h⟩

/-- Claim C1 (amended), case by case.  Every raising dispatch leaves
`state_transition` unchanged and returns no events, and the fate of
`current_state` is pinned by which check raised: a non-`StateChange`
argument leaves the manager entirely unchanged; whenever the precondition
passed and the transition function returned an `Iteration` yet dispatch
raised, that `Iteration` necessarily violated the State or Event contract
and `current_state` HAS been overwritten with exactly its new-state
component; a non-`Iteration` return leaves the manager entirely
unchanged. -/
theorem dispatch_error_atomicity (m : StateManager) (c : PyVal) (e : PyError)
    (h : (m.dispatch c).2 = .error e) :
    (m.dispatch c).1.state_transition = m.state_transition ∧
    (isStateChange c = false → (m.dispatch c).1 = m) ∧
    (∀ ns evs, isStateChange c = true →
      m.state_transition m.current_state c = .iterationVal ns evs →
      (isStateOrNone ns = false ∨ evs.all isEvent = false) ∧
      (m.dispatch c).1.current_state = ns) ∧
    ((∀ ns evs, m.state_transition m.current_state c ≠ .iterationVal ns evs) →
      (m.dispatch c).1 = m) := by
  by_cases hc : isStateChange c = false
  · have hd : m.dispatch c = (m, .error .assertionError) := by
      simp [StateManager.dispatch, hc]
    rw [hd]
    refine ⟨rfl, fun _ => rfl, fun ns' evs' htrue _ => ?_, fun _ => rfl⟩
    rw [hc] at htrue
    exact Bool.noConfusion htrue
  · cases hit : m.state_transition m.current_state c with
    | iterationVal ns evs =>
      by_cases hns : isStateOrNone ns = false
      · have hd : m.dispatch c
            = ({ m with current_state := ns }, .error .assertionError) := by
          simp [StateManager.dispatch, hc, hit, hns]
        rw [hd]
        refine ⟨rfl, fun hfalse => absurd hfalse hc, fun ns' evs' _ heq => ?_,
          fun hne => absurd rfl (hne ns evs)⟩
        cases heq
        exact ⟨Or.inl hns, rfl⟩
      · by_cases hev : evs.all isEvent = false
        · have hd : m.dispatch c
              = ({ m with current_state := ns }, .error .assertionError) := by
            simp [StateManager.dispatch, hc, hit, hns, hev]
          rw [hd]
          refine ⟨rfl, fun hfalse => absurd hfalse hc, fun ns' evs' _ heq => ?_,
            fun hne => absurd rfl (hne ns evs)⟩
          cases heq
          exact ⟨Or.inr hev, rfl⟩
        · have hd : m.dispatch c = ({ m with current_state := ns }, .ok evs) := by
            simp [StateManager.dispatch, hc, hit, hns, hev]
          rw [hd] at h
          exact Except.noConfusion h
    | none =>
      have hd : m.dispatch c = (m, .error .assertionError) := by
        simp [StateManager.dispatch, hc, hit]
      rw [hd]
      exact ⟨rfl, fun _ => rfl, fun ns' evs' _ heq => PyVal.noConfusion heq,
        fun _ => rfl⟩
    | stateVal d =>
      have hd : m.dispatch c = (m, .error .assertionError) := by
        simp [StateManager.dispatch, hc, hit]
      rw [hd]
      exact ⟨rfl, fun _ => rfl, fun ns' evs' _ heq => PyVal.noConfusion heq,
        fun _ => rfl⟩
    | stateChangeVal d =>
      have hd : m.dispatch c = (m, .error .assertionError) := by
        simp [StateManager.dispatch, hc, hit]
      rw [hd]
      exact ⟨rfl, fun _ => rfl, fun ns' evs' _ heq => PyVal.noConfusion heq,
        fun _ => rfl⟩
    | eventVal d =>
      have hd : m.dispatch c = (m, .error .assertionError) := by
        simp [StateManager.dispatch, hc, hit]
      rw [hd]
      exact ⟨rfl, fun _ => rfl, fun ns' evs' _ heq => PyVal.noConfusion heq,
        fun _ => rfl⟩
    | other d =>
      have hd : m.dispatch c = (m, .error .assertionError) := by
        simp [StateManager.dispatch, hc, hit]
      rw [hd]
      exact ⟨rfl, fun _ => rfl, fun ns' evs' _ heq => PyVal.noConfusion heq,
        fun _ => rfl⟩

/-- Claim C1 (amended) witness: a transition returning an `Iteration` whose
new state is a plain object, dispatched against a concrete manager —
dispatch raises, and the theorem's contract-violation case yields that
`current_state` has been overwritten with that very object. -/
theorem dispatch_error_atomicity_witness :
    ((StateManager.mk (fun _ _ => .iterationVal (.other 3) []) (.stateVal 5)).dispatch
        (.stateChangeVal 1)).1.state_transition
      = (StateManager.mk (fun _ _ => PyVal.iterationVal (.other 3) []) (.stateVal 5)).state_transition ∧
    (isStateOrNone (.other 3) = false ∨ ([] : List PyVal).all isEvent = false) ∧
    ((StateManager.mk (fun _ _ => .iterationVal (.other 3) []) (.stateVal 5)).dispatch
        (.stateChangeVal 1)).1.current_state = .other 3 :=
  ⟨(dispatch_error_atomicity
      (StateManager.mk (fun _ _ => PyVal.iterationVal (.other 3) []) (.stateVal 5))
      (.stateChangeVal 1) .assertionError rfl).1,
   ((dispatch_error_atomicity
      (StateManager.mk (fun _ _ => PyVal.iterationVal (.other 3) []) (.stateVal 5))
      (.stateChangeVal 1) .assertionError rfl).2.2.1 (.other 3) [] rfl rfl).1,
   ((dispatch_error_atomicity
      (StateManager.mk (fun _ _ => PyVal.iterationVal (.other 3) []) (.stateVal 5))
      (.stateChangeVal 1) .assertionError rfl).2.2.1 (.other 3) [] rfl rfl).2⟩

end Raiden
